import Mathlib

/-!
Verification of the cita-checker (src/cita-checker/check-cita.py): a shallow
embedding of its availability classifier, navigation sequence, authentication
step, page-ready waiter and run/exit-code logic, with theorems checking the
specification's claims against the embedded code.

Page texts are modelled as `String`; Python's `.lower()` is modelled
character-wise with `Char.toLower` (all phrases in the program are ASCII),
and Python's `needle in haystack` as a contiguous-segment test on the
character lists.
-/

namespace CitaChecker

/-- The tri-state verdict returned by `CitaChecker.check_availability`
(the strings "AVAILABLE" / "NOT_AVAILABLE" / "ERROR" in the Python source). -/
inductive Verdict
  | AVAILABLE
  | NOT_AVAILABLE
  | ERROR
deriving DecidableEq, Repr

/-- Test whether `pat` is a leading segment of `text` (character lists). -/
def charsStartWith : List Char → List Char → Bool
  | _, [] => true
  | [], _ :: _ => false
  | c :: cs, p :: ps => c == p && charsStartWith cs ps

/-- Test whether `pat` occurs as a contiguous segment of `text` (character lists):
Python's `pat in text` on strings. -/
def charsContain : List Char → List Char → Bool
  | [], ps => ps.isEmpty
  | c :: cs, ps => charsStartWith (c :: cs) ps || charsContain cs ps

/-- Python's `.lower()` on the character list of a page text. -/
def lowerChars (cs : List Char) : List Char := cs.map Char.toLower

/-- Python's substring test `needle in haystack.lower()`. -/
def containsSub (haystack : String) (needle : String) : Bool :=
  charsContain (lowerChars haystack.toList) needle.toList

/-- The canonical no-slots phrase checked at lines 674 and 702 of check-cita.py. -/
def noCitasPhrase : String := "en este momento no hay citas disponibles"

/-- The list `error_indicators` (check-cita.py lines 685-693), in source order. -/
def error_indicators : List String :=
  ["the requested url was rejected",
   "url was rejected",
   "error",
   "exception",
   "support id",
   "consult with your administrador",
   "go back"]

/-- The list `positive_indicators` (check-cita.py lines 709-715), in source order. -/
def positive_indicators : List String :=
  ["solicitar cita",
   "seleccione fecha",
   "citas disponibles",
   "reservar cita",
   "calendario"]

/-- The `for error_indicator in error_indicators` loop (lines 695-699):
returns true as soon as one indicator is contained in the (already
lower-cased) page text. -/
def scanError : List String → String → Bool
  | [], _ => false
  | e :: rest, t => if containsSub t e then true else scanError rest t

/-- The check `has_positive_indicator = any(indicator in page_text for indicator in
positive_indicators)` (line 717). -/
def hasPositive (t : String) : Bool :=
  positive_indicators.any (fun p => containsSub t p)

/-- The full-page-text part of the classification (check-cita.py lines
681-727): lower-case the body text, scan the error indicators, then the
no-citas phrase, then the positive indicators, else ERROR. -/
def classifyPage (pageText : String) : Verdict :=
  if scanError error_indicators pageText then Verdict.ERROR
  else if containsSub pageText noCitasPhrase then Verdict.NOT_AVAILABLE
  else if hasPositive pageText then Verdict.AVAILABLE
  else Verdict.ERROR

/-- The classification tail of `CitaChecker.check_availability`
(check-cita.py lines 667-727). `warningText` is the text of the `#warning`
div when that div was found and readable (lines 668-679), `none` otherwise;
its text is lower-cased and searched for the no-citas phrase, and on a match
the method returns NOT_AVAILABLE at once; every other path falls through to
the full-page-text classification. -/
def classify (warningText : Option String) (pageText : String) : Verdict :=
  match warningText with
  | some w =>
      if containsSub w noCitasPhrase then Verdict.NOT_AVAILABLE
      else classifyPage pageText
  | none => classifyPage pageText

/-- Modelled from the spec, section 4.4: the five-step first-match-wins
evaluation order, written from the spec's words, to be compared with
`classify` (which is translated from the source). -/
def specClassify (warningText : Option String) (pageText : String) : Verdict :=
  let warnHit : Bool :=
    match warningText with
    | some w => containsSub w noCitasPhrase
    | none => false
  if warnHit then Verdict.NOT_AVAILABLE
  else if error_indicators.any (fun e => containsSub pageText e) then Verdict.ERROR
  else if containsSub pageText noCitasPhrase then Verdict.NOT_AVAILABLE
  else if positive_indicators.any (fun p => containsSub pageText p) then Verdict.AVAILABLE
  else Verdict.ERROR

/-! ## Navigation sequence (check-cita.py lines 544-612)

Each of `select_provincia`, `select_oficina`, `select_tramite` wraps its body
in `try/except` and returns a boolean: `False` covers both a raised exception
(e.g. `ElementNotFound` / timeout on the dropdown) and an unmet postcondition;
within-step leniencies (a failed Aceptar click, a scroll failure) are logged
and do not make the step return `False`. The environment below records each
step's boolean outcome. -/

/-- Outcomes of the three selection steps, as observed by
`navigate_to_appointment_form`. -/
structure NavEnv where
  provincia_ok : Bool
  oficina_ok : Bool
  tramite_ok : Bool
deriving DecidableEq, Repr

/-- The three selection steps of the navigation sequence. -/
inductive NavStep
  | provincia
  | oficina
  | tramite
deriving DecidableEq, Repr

/-- Model of `CitaChecker.navigate_to_appointment_form` (lines 544-598): the steps run
in order, and a `False` from any step makes the method return `False` at once
(lines 575-590). The result records the overall boolean and the list of steps
that were attempted. -/
def navigate_to_appointment_form (env : NavEnv) : Bool × List NavStep :=
  let attempted := [NavStep.provincia]
  if !env.provincia_ok then (false, attempted)
  else
    let attempted := attempted ++ [NavStep.oficina]
    if !env.oficina_ok then (false, attempted)
    else
      let attempted := attempted ++ [NavStep.tramite]
      if !env.tramite_ok then (false, attempted)
      else (true, attempted)

/-- The navigation guard at the head of `CitaChecker.check_availability`
(lines 609-612): a failed navigation returns "ERROR" at once; otherwise the
method goes on to produce the classification verdict (`rest`). -/
def check_availability_nav (env : NavEnv) (rest : Verdict) : Verdict × List NavStep :=
  let nav := navigate_to_appointment_form env
  if !nav.1 then (Verdict.ERROR, nav.2)
  else (rest, nav.2)

/-! ## Authentication step (check-cita.py lines 624-661) -/

/-- The two authentication-trigger strategies of lines 629-653. -/
inductive AuthStrategy
  | accesoClave
  | eIdentifier
deriving DecidableEq, Repr

/-- The authentication step of `check_availability` (lines 624-661), recording
which strategies were attempted and whether control reaches the
classification code. When `use_clave` is set, the strategy-A `try` block
(`wait_and_click` on `btnAccesoClave`, outcome `a_ok`) runs first; the
strategy-B `try` block (click the parent of the text-matched span, outcome
`b_ok`) is a separate statement that runs next regardless of `a_ok`; every
exception in either block is caught, so the step always falls through. -/
def authenticate_step (use_clave a_ok b_ok : Bool) : List AuthStrategy × Bool :=
  if use_clave then
    let tried := [AuthStrategy.accesoClave]
    let tried := tried ++ [AuthStrategy.eIdentifier]
    (tried, true)
  else ([], true)

/-! ## Page-ready waiter (check-cita.py lines 316-329) -/

/-- Behaviour of the browser during one `wait_for_ready_state` call:
`readyAt` is the earliest poll instant at which
`document.readyState == "complete"` holds (`none` = never during the wait),
and `scriptError` records whether the polled script raises. -/
structure WaitEnv where
  readyAt : Option Nat
  scriptError : Bool
deriving DecidableEq, Repr

/-- Result of the inner `WebDriverWait(...).until(...)` primitive: it either
completes, raises `TimeoutException`, or propagates another exception. -/
inductive WaitResult
  | completes
  | timeoutExn
  | otherExn
deriving DecidableEq, Repr

/-- The `WebDriverWait(self.driver, timeout).until(lambda d: ...)` call inside
`wait_for_ready_state` (lines 319-321). -/
def waitUntilComplete (env : WaitEnv) (timeout : Nat) : WaitResult :=
  if env.scriptError then WaitResult.otherExn
  else
    match env.readyAt with
    | some t => if t ≤ timeout then WaitResult.completes else WaitResult.timeoutExn
    | none => WaitResult.timeoutExn

/-- Model of `CitaChecker.wait_for_ready_state` (lines 316-329): returns `True` when
the inner wait completes, `False` on `TimeoutException` and `False` on any
other exception. -/
def wait_for_ready_state (env : WaitEnv) (timeout : Nat) : Bool :=
  match waitUntilComplete env timeout with
  | WaitResult.completes => true
  | WaitResult.timeoutExn => false
  | WaitResult.otherExn => false

/-! ## run() and the exit-code mapping (check-cita.py lines 734-797, 846-857) -/

/-- Observable outcome of one `CitaChecker.run()` call. -/
structure RunOutcome where
  result : Verdict
  checkAttempted : Bool
  heldOpen : Bool
  driverQuit : Bool
deriving DecidableEq, Repr

/-- Model of `CitaChecker.run` (lines 734-797). `setup_ok` is the boolean returned by
`setup_firefox`; `driver_set` records whether `self.driver` is non-None after
setup (the constructor can succeed and a later call in the same `try` fail,
so `driver_set` and `setup_ok` vary independently); `checkResult` is what
`check_availability` returns when it is reached. The `finally` block quits
the driver exactly when the driver exists and the result is not "AVAILABLE"
(lines 789-797); the hold-open loop (lines 764-779) runs only on
"AVAILABLE". -/
def run (setup_ok driver_set : Bool) (checkResult : Verdict) : RunOutcome :=
  if !setup_ok then
    { result := Verdict.ERROR, checkAttempted := false, heldOpen := false,
      driverQuit := driver_set }
  else if !driver_set then
    { result := Verdict.ERROR, checkAttempted := false, heldOpen := false,
      driverQuit := false }
  else
    { result := checkResult, checkAttempted := true,
      heldOpen := checkResult = Verdict.AVAILABLE,
      driverQuit := checkResult ≠ Verdict.AVAILABLE }

/-- The exit-code mapping in `main` (lines 848-857). -/
def exit_code : Verdict → Nat
  | Verdict.AVAILABLE => 0
  | Verdict.NOT_AVAILABLE => 1
  | Verdict.ERROR => 2

/-! ## Theorems -/

theorem scanError_eq_any (l : List String) (t : String) :
    scanError l t = l.any (fun e => containsSub t e) := by
  induction l with
  | nil => rfl
  | cons e rest ih =>
      cases h : containsSub t e <;> simp [scanError, h, ih]

/-- C1: for every page text and warning-region text, the classification
follows the five-step first-match-wins order of the spec (warning no-slots,
error set, page no-slots, positive set, else ERROR); in particular a warning
text containing the canonical no-slots phrase yields NOT_AVAILABLE whatever
the page text holds. -/
theorem classify_follows_spec_order :
    (∀ ow p, classify ow p = specClassify ow p) ∧
    (∀ w p : String, containsSub w noCitasPhrase = true →
      classify (some w) p = Verdict.NOT_AVAILABLE) := by
  constructor
  · intro ow p
    cases ow with
    | none => simp [classify, specClassify, classifyPage, scanError_eq_any, hasPositive]
    | some w =>
        cases h : containsSub w noCitasPhrase <;>
          simp [classify, specClassify, classifyPage, scanError_eq_any, hasPositive, h]
  · intro w p h
    simp [classify, h]

theorem classify_follows_spec_order_witness :
    classify (some "en este momento no hay citas disponibles")
      "seleccione fecha y hora para su cita" = Verdict.NOT_AVAILABLE :=
  classify_follows_spec_order.2 "en este momento no hay citas disponibles"
    "seleccione fecha y hora para su cita" (by decide)

/-- C2: a page text containing any error-set phrase classifies as ERROR,
whatever else the page contains, both without a warning region and with a
warning region whose text does not contain the no-slots phrase. -/
theorem error_scan_priority (p e : String)
    (he : e ∈ error_indicators) (hc : containsSub p e = true) :
    classify none p = Verdict.ERROR ∧
    ∀ w, containsSub w noCitasPhrase = false → classify (some w) p = Verdict.ERROR := by
  have hscan : scanError error_indicators p = true := by
    rw [scanError_eq_any]
    exact List.any_eq_true.mpr ⟨e, he, hc⟩
  constructor
  · simp [classify, classifyPage, hscan]
  · intro w hw
    simp [classify, classifyPage, hw, hscan]

theorem error_scan_priority_witness :
    classify none
      "error: en este momento no hay citas disponibles, solicitar cita" = Verdict.ERROR ∧
    classify (some "aviso")
      "error: en este momento no hay citas disponibles, solicitar cita" = Verdict.ERROR :=
  ⟨(error_scan_priority "error: en este momento no hay citas disponibles, solicitar cita"
      "error" (by decide) (by decide)).1,
   (error_scan_priority "error: en este momento no hay citas disponibles, solicitar cita"
      "error" (by decide) (by decide)).2 "aviso" (by decide)⟩

/-- C3 counterexample: the phrase sets are not mutually exclusive — the text
consisting exactly of the canonical no-slots phrase contains the
positive-indicator phrase "citas disponibles". -/
theorem noCitas_phrase_matches_positive_set :
    containsSub noCitasPhrase "citas disponibles" = true ∧
    "citas disponibles" ∈ positive_indicators ∧
    hasPositive noCitasPhrase = true := by decide

/-- C3 (amended): the no-slots phrase matches no error-set string but does
match the positive indicator "citas disponibles"; every text consisting
exactly of a positive-indicator phrase matches no error-set string and does
not contain the no-slots phrase. -/
theorem phrase_sets_partial_exclusivity :
    scanError error_indicators noCitasPhrase = false ∧
    hasPositive noCitasPhrase = true ∧
    positive_indicators.all
      (fun q => !scanError error_indicators q && !containsSub q noCitasPhrase) = true := by
  decide

/-- C4: a failure of province, office or procedure selection makes the whole
navigation/check sequence return ERROR at once, and the steps after the
failing one are never attempted (the attempted-step list stops at the failing
step). -/
theorem nav_step_failure_short_circuits (env : NavEnv) (rest : Verdict) :
    (env.provincia_ok = false →
       check_availability_nav env rest = (Verdict.ERROR, [NavStep.provincia])) ∧
    (env.provincia_ok = true → env.oficina_ok = false →
       check_availability_nav env rest =
         (Verdict.ERROR, [NavStep.provincia, NavStep.oficina])) ∧
    (env.provincia_ok = true → env.oficina_ok = true → env.tramite_ok = false →
       check_availability_nav env rest =
         (Verdict.ERROR, [NavStep.provincia, NavStep.oficina, NavStep.tramite])) := by
  obtain ⟨a, b, c⟩ := env
  cases a <;> cases b <;> cases c <;> cases rest <;> decide

theorem nav_step_failure_short_circuits_witness :
    check_availability_nav ⟨true, false, true⟩ Verdict.AVAILABLE =
      (Verdict.ERROR, [NavStep.provincia, NavStep.oficina]) :=
  (nav_step_failure_short_circuits ⟨true, false, true⟩ Verdict.AVAILABLE).2.1 rfl rfl

/-- C5: the verdict-to-exit-code mapping is AVAILABLE to 0, NOT_AVAILABLE to 1,
ERROR to 2, and the three concrete scenario page texts classify and map as the
spec states. -/
theorem verdict_exit_codes :
    exit_code Verdict.AVAILABLE = 0 ∧
    exit_code Verdict.NOT_AVAILABLE = 1 ∧
    exit_code Verdict.ERROR = 2 ∧
    classify none "en este momento no hay citas disponibles" = Verdict.NOT_AVAILABLE ∧
    exit_code (classify none "en este momento no hay citas disponibles") = 1 ∧
    classify none "the requested url was rejected, support id: 12345" = Verdict.ERROR ∧
    exit_code (classify none "the requested url was rejected, support id: 12345") = 2 ∧
    classify none "seleccione fecha y hora para su cita" = Verdict.AVAILABLE ∧
    exit_code (classify none "seleccione fecha y hora para su cita") = 0 := by
  decide

/-- C6: the hold-open loop runs only when the verdict is AVAILABLE (and then
the driver is not quit), and whenever a driver exists, the driver is quit
exactly when the final result is not AVAILABLE. -/
theorem hold_open_only_on_available (s d : Bool) (c : Verdict) :
    ((run s d c).heldOpen = true →
       (run s d c).result = Verdict.AVAILABLE ∧ (run s d c).driverQuit = false) ∧
    ((run s d c).result = Verdict.AVAILABLE →
       (run s d c).heldOpen = true ∧ (run s d c).driverQuit = false) ∧
    (d = true →
       ((run s d c).driverQuit = true ↔ (run s d c).result ≠ Verdict.AVAILABLE)) := by
  cases s <;> cases d <;> cases c <;> decide

theorem hold_open_only_on_available_witness :
    (run true true Verdict.AVAILABLE).result = Verdict.AVAILABLE ∧
    (run true true Verdict.AVAILABLE).driverQuit = false :=
  (hold_open_only_on_available true true Verdict.AVAILABLE).1 (by decide)

/-- C7 counterexample: with `use_clave` set, even when the first strategy
(btnAccesoClave) succeeds, the second strategy (eIdentifier parent click) is
still attempted — the two `try` blocks run in sequence unconditionally. -/
theorem second_strategy_attempted_after_first_succeeds :
    (authenticate_step true true true).1 =
      [AuthStrategy.accesoClave, AuthStrategy.eIdentifier] ∧
    AuthStrategy.eIdentifier ∈ (authenticate_step true true true).1 := by decide

/-- C7 (amended): with `use_clave` set, both authentication-trigger strategies
are attempted in sequence regardless of either outcome, failures are
non-fatal, and control always falls through to classification; without
`use_clave` neither strategy is attempted. -/
theorem auth_strategies_both_attempted_nonfatal (a_ok b_ok : Bool) :
    authenticate_step true a_ok b_ok =
      ([AuthStrategy.accesoClave, AuthStrategy.eIdentifier], true) ∧
    authenticate_step false a_ok b_ok = ([], true) := by
  cases a_ok <;> cases b_ok <;> decide

/-- C8: the page-ready waiter always returns a boolean — true exactly when
the load-complete signal fires within the timeout and no internal exception
occurs — and any internal exception results in false rather than a raised
error. -/
theorem wait_for_ready_state_total (env : WaitEnv) (timeout : Nat) :
    (wait_for_ready_state env timeout = true ↔
       env.scriptError = false ∧ ∃ t, env.readyAt = some t ∧ t ≤ timeout) ∧
    (env.scriptError = true → wait_for_ready_state env timeout = false) := by
  obtain ⟨r, e⟩ := env
  cases e
  · cases r with
    | none => simp [wait_for_ready_state, waitUntilComplete]
    | some t =>
        by_cases h : t ≤ timeout <;>
          simp [wait_for_ready_state, waitUntilComplete, h]
  · simp [wait_for_ready_state, waitUntilComplete]

theorem wait_for_ready_state_total_witness :
    wait_for_ready_state ⟨some 3, true⟩ 120 = false :=
  (wait_for_ready_state_total ⟨some 3, true⟩ 120).2 rfl

/-- C9: the error set contains the bare substrings "error" and "go back", so
every page text containing "error" (with no warning-region no-slots match)
classifies as ERROR and is never classified AVAILABLE, even when positive
booking vocabulary is also present. -/
theorem bare_error_substring_forces_error (p : String)
    (hc : containsSub p "error" = true) :
    "error" ∈ error_indicators ∧ "go back" ∈ error_indicators ∧
    classify none p = Verdict.ERROR ∧
    (∀ w, containsSub w noCitasPhrase = false →
       classify (some w) p = Verdict.ERROR) ∧
    classify none p ≠ Verdict.AVAILABLE := by
  have hscan : scanError error_indicators p = true := by
    rw [scanError_eq_any]
    exact List.any_eq_true.mpr ⟨"error", by decide, hc⟩
  refine ⟨by decide, by decide, ?_, ?_, ?_⟩
  · simp [classify, classifyPage, hscan]
  · intro w hw
    simp [classify, classifyPage, hw, hscan]
  · simp [classify, classifyPage, hscan]

theorem bare_error_substring_forces_error_witness :
    classify none "error al procesar: solicitar cita en el calendario" = Verdict.ERROR :=
  (bare_error_substring_forces_error
    "error al procesar: solicitar cita en el calendario" (by decide)).2.2.1

/-- C10: when browser setup fails (setup_firefox returns False, or the driver
is still unset after setup), run() returns ERROR — exit code 2 — without
attempting navigation or classification. -/
theorem setup_failure_short_circuits (s d : Bool) (c : Verdict) :
    (s = false →
       (run s d c).result = Verdict.ERROR ∧ (run s d c).checkAttempted = false ∧
       exit_code (run s d c).result = 2) ∧
    (s = true → d = false →
       (run s d c).result = Verdict.ERROR ∧ (run s d c).checkAttempted = false ∧
       exit_code (run s d c).result = 2) := by
  cases s <;> cases d <;> cases c <;> decide

theorem setup_failure_short_circuits_witness :
    (run false false Verdict.AVAILABLE).result = Verdict.ERROR ∧
    (run false false Verdict.AVAILABLE).checkAttempted = false ∧
    exit_code (run false false Verdict.AVAILABLE).result = 2 :=
  (setup_failure_short_circuits false false Verdict.AVAILABLE).1 rfl

end CitaChecker
